import Mathlib

/-!
Verification of the research-assistant pipeline against its design
specification.  The Python stages (fetcher, summariser, critic, trend
analyzer, planner) are shallowly embedded as executable Lean functions;
external effects (HTTP responses, the language-model oracle, the SQLite
store) appear as explicit parameters or explicit state.  Each definition
cites the source file and lines it embeds.
-/

/-- Python truthiness of an optional string: `None` and the empty string are
falsy, every other string is truthy (used at src/agents/summariser.py
line 193 `llm_res or abs_res` and line 194 `if fallback_txt:`). -/
def truthy : Option String → Bool
  | none => false
  | some s => s != ""

/-- Python `a or b` on optional strings: the left operand if truthy,
otherwise the right operand. -/
def pyOr (a b : Option String) : Option String :=
  if truthy a then a else b

/- ------------------------------------------------------------------ -/
/- Summarization stage: fallback branch of SummariserAgent.run        -/
/- (src/agents/summariser.py lines 183-198)                           -/
/- ------------------------------------------------------------------ -/

/-- The module-level globals of src/agents/summariser.py that the two
fallback threads write through `globals().update(abs_res=...)` and
`globals().update(llm_res=...)` (lines 187-190). -/
structure SummariserGlobals where
  abs_res : Option String
  llm_res : Option String
deriving DecidableEq

/-- Environment for one item reaching the fallback branch: the value
`_fetch_abstract(title, arx_id)` (summariser.py line 97) would produce for
this item, and the value `_llm_title_summary(title)` (line 125) would
produce.  Both helpers catch their own exceptions and return None, modelled
as `none`; a successful lookup is `some text`. -/
structure FallbackEnv where
  abstractResult : Option String
  titleResult : Option String
deriving DecidableEq

/-- Per-item outcome of the fallback branch: either the item is skipped
(`continue`, line 198) or it proceeds with a summary text. -/
inductive ItemResult where
  | skipped
  | summarised (text : String)
deriving DecidableEq

/-- Lines 185-193 of src/agents/summariser.py, statement by statement:
`abs_res, llm_res = None, None` binds two LOCAL variables (line 185); the
two threads started on lines 187-191 write the lookup results into the
module globals via `globals().update`, not into those locals; line 193
computes `fallback_txt = llm_res or abs_res` over the local variables,
which are never reassigned in the enclosing scope.  Returns the updated
globals and the selected fallback text. -/
def summariserFallback (_g : SummariserGlobals) (env : FallbackEnv) :
    SummariserGlobals × Option String :=
  let abs_res : Option String := none
  let llm_res : Option String := none
  let g2 : SummariserGlobals :=
    { abs_res := env.abstractResult, llm_res := env.titleResult }
  (g2, pyOr llm_res abs_res)

/-- Lines 193-198 of src/agents/summariser.py: if the selected fallback
text is truthy the item obtains `summary = _llm(fallback_txt)` (the final
oracle call, modelled by the parameter `llm`); otherwise the item is
skipped via `continue`. -/
def summariserFallbackItem (g : SummariserGlobals) (env : FallbackEnv)
    (llm : String → String) : SummariserGlobals × ItemResult :=
  let p := summariserFallback g env
  if truthy p.2 then (p.1, ItemResult.summarised (llm (p.2.getD (""))))
  else (p.1, ItemResult.skipped)

/-- A concrete fallback environment in which both the catalog-abstract
lookup and the oracle title-guess succeed. -/
def envBoth : FallbackEnv :=
  { abstractResult := some ("an abstract from the catalog"),
    titleResult := some ("a title based guess") }

/-- C9: the two fallback threads write module globals while the winner
selection reads the never-reassigned locals, so for every item reaching
the fallback branch the selected fallback text is None and the item is
skipped, regardless of either lookup result. -/
theorem C9_fallback_always_skips (g : SummariserGlobals) (env : FallbackEnv)
    (llm : String → String) :
    (summariserFallback g env).2 = none ∧
    (summariserFallbackItem g env llm).2 = ItemResult.skipped :=
  ⟨rfl, rfl⟩

/-- C1 counterexample: with both lookups succeeding (envBoth), the item is
skipped; in particular the catalog abstract is not the text used for the
final summary, contrary to the claim. -/
theorem C1_cex :
    (summariserFallbackItem { abs_res := none, llm_res := none } envBoth
        (fun s => s)).2 = ItemResult.skipped ∧
    (summariserFallbackItem { abs_res := none, llm_res := none } envBoth
        (fun s => s)).2 ≠ ItemResult.summarised ("an abstract from the catalog") := by
  exact ⟨rfl, by decide⟩

/-- C1 (amended): in the fallback branch, even when both the
catalog-abstract lookup and the oracle title-guess succeed, neither text is
used: the selection reads locals that remain None, so the item is skipped.
Moreover the selection expression `llm_res or abs_res` gives priority to
the oracle title-guess, not to the catalog abstract, whenever it sees a
truthy title-guess. -/
theorem C1_amended (g : SummariserGlobals) (env : FallbackEnv)
    (llm : String → String)
    (habs : truthy env.abstractResult = true)
    (htitle : truthy env.titleResult = true) :
    (summariserFallbackItem g env llm).2 = ItemResult.skipped ∧
    pyOr env.titleResult env.abstractResult = env.titleResult := by
  refine ⟨rfl, ?_⟩
  simp [pyOr, htitle]

/-- Witness for C1 (amended) at the concrete environment envBoth. -/
theorem C1_amended_witness :
    (summariserFallbackItem { abs_res := none, llm_res := none } envBoth
        (fun s => s)).2 = ItemResult.skipped ∧
    pyOr envBoth.titleResult envBoth.abstractResult = envBoth.titleResult :=
  C1_amended { abs_res := none, llm_res := none } envBoth (fun s => s)
    (by decide) (by decide)

/- ------------------------------------------------------------------ -/
/- Trend stage: growth computation                                    -/
/- (src/agents/trend.py lines 114-115)                                -/
/- ------------------------------------------------------------------ -/

/-- Growth computation of TrendAnalyzerAgent.run (src/agents/trend.py lines
114-115): `prev = counts_prev[lab] or 1` then
`growth = (counts[lab] - counts_prev[lab]) / prev`.  Python float division
is embedded over the rationals; for the small integer counts involved the
float computation is exact. -/
def growthCalc (curr prevCount : Nat) : ℚ :=
  let prev : Nat := if prevCount = 0 then 1 else prevCount
  ((curr : ℚ) - (prevCount : ℚ)) / (prev : ℚ)

/-- C3 counterexample: a cluster with previous-window count 0 and
current-window count 3 gets growth 3, not 1 as the claim states. -/
theorem C3_cex : growthCalc 3 0 = 3 ∧ growthCalc 3 0 ≠ 1 := by
  constructor <;> norm_num [growthCalc]

/-- C3 (amended): for a cluster whose previous-window count is 0, the
computed growth equals the current-window count (100 percent growth per
current member); in particular previous 0 and current 3 yields exactly 3.0,
not 1.0. -/
theorem C3_amended (c : Nat) : growthCalc c 0 = (c : ℚ) := by
  simp [growthCalc]

/- ------------------------------------------------------------------ -/
/- Papers store and fetch stage (src/services/storage.py,             -/
/- src/agents/fetcher.py)                                             -/
/- ------------------------------------------------------------------ -/

/-- One row of the `papers` table (src/services/storage.py lines 11-21).
Optional columns model SQL NULL.  The schema has no `source` column. -/
structure PaperRow where
  id : String
  title : String
  summary : String
  pdf_url : Option String
  embedding : Option String
  score_novelty : Option String
  score_method : Option String
  score_relevance : Option String
  critique : Option String
  created_at : Int
deriving DecidableEq

/-- A work item emitted by the fetch stage (the dicts built at
src/agents/fetcher.py lines 115-123 and 152-160). -/
structure FetchItem where
  paper_id : String
  title : String
  doi : Option String
  source : String
  pdf_url : String
deriving DecidableEq

/-- An arXiv feed entry after the regex extraction of
FetcherAgent._fetch_arxiv (fetcher.py lines 101-114): the captured
accession id from the id tag (`none` when the tag is missing, in which
case the entry is skipped), the whitespace-normalised title and the
optional doi tag. -/
structure ArxivEntry where
  idTag : Option String
  title : String
  doi : Option String
deriving DecidableEq

/-- A Semantic Scholar result item as read by
FetcherAgent._fetch_semantic_scholar (fetcher.py lines 145-160): title,
optional DOI taken from externalIds, and the url field (both defaulted to
the empty string by `.get`). -/
structure S2Entry where
  title : String
  doi : Option String
  url : String
deriving DecidableEq

/-- Result of an HTTP GET as seen through `raise_for_status`: a parsed
body, or an HTTP error status (requests.exceptions.HTTPError). -/
inductive HttpResult (α : Type) where
  | ok (body : α)
  | httpError
deriving DecidableEq

/-- _existing_ids (src/agents/fetcher.py lines 44-51): all stored paper
ids, partitioned into those starting with "arxiv:" and the rest (DOIs).
The stored arXiv ids keep their "arxiv:" prefixed form in the first
component. -/
def existing_ids (table : List PaperRow) : List String × List String :=
  ((table.map (fun r => r.id)).filter (fun pid => pid.startsWith ("arxiv:")),
   (table.map (fun r => r.id)).filter (fun pid => !(pid.startsWith ("arxiv:"))))

/-- Character class of _DOI_RE (fetcher.py line 40) under re.I: ASCII
letters, digits, and the listed punctuation. -/
def doiClassChar (c : Char) : Bool :=
  c.isAlpha || c.isDigit || c = '-' || c = '.' || c = '_' || c = ';' ||
    c = '(' || c = ')' || c = '/' || c = ':'

/-- `_DOI_RE.match doi` (fetcher.py lines 40 and 150): anchored at the
start, the literal "10.", then a run of four to nine digits, then "/",
then at least one class character.  Backtracking over the greedy digit
count means the whole consecutive digit run after "10." must have length
between 4 and 9 and be followed by "/" and a class character. -/
def matchesDoiRe (s : String) : Bool :=
  match s.data with
  | '1' :: '0' :: '.' :: rest =>
    let ds := rest.takeWhile Char.isDigit
    let tail := rest.dropWhile Char.isDigit
    decide (4 ≤ ds.length) && decide (ds.length ≤ 9) &&
      (match tail with
       | '/' :: c :: _ => doiClassChar c
       | _ => false)
  | _ => false

/-- FetcherAgent._fetch_arxiv (src/agents/fetcher.py lines 88-125).  The
HTTP call ends with `resp.raise_for_status()` on line 99 and nothing
catches it: an HTTP error propagates out of the stage (Except.error).  On
success each entry with an id tag is kept (the membership test against
`arxiv_done` compares the raw accession id with the "arxiv:" prefixed
stored ids, exactly as the source does on line 109) and becomes a work
item with prefixed id and derived pdf url. -/
def fetch_arxiv (resp : HttpResult (List ArxivEntry))
    (arxiv_done : List String) : Except Unit (List FetchItem) :=
  match resp with
  | HttpResult.httpError => Except.error ()
  | HttpResult.ok entries =>
    Except.ok (entries.filterMap (fun e =>
      match e.idTag with
      | none => none
      | some aid =>
        if aid ∈ arxiv_done then none
        else some { paper_id := "arxiv:" ++ aid, title := e.title,
                    doi := e.doi, source := "arXiv",
                    pdf_url := "https://arxiv.org/pdf/" ++ aid ++ ".pdf" }))

/-- FetcherAgent._fetch_semantic_scholar (src/agents/fetcher.py lines
130-162).  Here, and only here, the HTTP call is wrapped in a
try/except HTTPError (lines 138-143): an HTTP error is logged and the
function returns the empty list.  On success, items without a truthy DOI,
with a DOI already stored, or with a DOI rejected by _DOI_RE are skipped
individually; the rest become work items keyed by the DOI. -/
def fetch_semantic_scholar (resp : HttpResult (List S2Entry))
    (dois_done : List String) : List FetchItem :=
  match resp with
  | HttpResult.httpError => []
  | HttpResult.ok data =>
    data.filterMap (fun item =>
      match item.doi with
      | none => none
      | some doi =>
        if doi = "" ∨ doi ∈ dois_done ∨ matchesDoiRe doi = false then none
        else some { paper_id := doi, title := item.title, doi := some doi,
                    source := "Semantic Scholar", pdf_url := item.url })

/-- Insertion-ordered Python dict insert (the dict comprehension at
fetcher.py line 72): a repeated key keeps its first position and takes the
latest value. -/
def dictInsert (m : List FetchItem) (i : FetchItem) : List FetchItem :=
  if m.any (fun j => j.paper_id == i.paper_id) then
    m.map (fun j => if j.paper_id == i.paper_id then i else j)
  else m ++ [i]

/-- `combined.setdefault(item["paper_id"], item)` (fetcher.py line 74):
insert only when the key is absent, so the first-seen entry wins. -/
def dictSetdefault (m : List FetchItem) (i : FetchItem) : List FetchItem :=
  if m.any (fun j => j.paper_id == i.paper_id) then m else m ++ [i]

/-- FetcherAgent.run lines 72-76: build the insertion-ordered dict from
the arXiv items, setdefault every Semantic Scholar item, take the
values. -/
def combineItems (arxiv s2 : List FetchItem) : List FetchItem :=
  s2.foldl dictSetdefault (arxiv.foldl dictInsert [])

/-- The row written by the plain `INSERT INTO papers` of fetcher.py lines
172-179: only id, title, empty summary and embedding "[]" are given;
pdf_url and the score columns stay NULL (created_at comes from the column
default, modelled by `now`).  The item's source and pdf_url fields are
discarded. -/
def newPaperRow (it : FetchItem) (now : Int) : PaperRow :=
  { id := it.paper_id, title := it.title, summary := "", pdf_url := none,
    embedding := some ("[]"), score_novelty := none, score_method := none,
    score_relevance := none, critique := none, created_at := now }

/-- One plain `INSERT INTO papers` (fetcher.py lines 172-179): SQLite
raises an integrity error when the primary key already exists; otherwise
the new row is appended. -/
def insertPaper (table : List PaperRow) (it : FetchItem) (now : Int) :
    Except Unit (List PaperRow) :=
  if table.any (fun r => r.id == it.paper_id) then Except.error ()
  else Except.ok (table ++ [newPaperRow it now])

/-- FetcherAgent._persist (src/agents/fetcher.py lines 167-180): one
transaction of plain inserts; a failure aborts and rolls back the whole
transaction, modelled by the Except short-circuit. -/
def persistItems (table : List PaperRow) (items : List FetchItem)
    (now : Int) : Except Unit (List PaperRow) :=
  match items with
  | [] => Except.ok table
  | it :: rest =>
    match insertPaper table it now with
    | Except.error e => Except.error e
    | Except.ok t2 => persistItems t2 rest now

/-- FetcherAgent.run (src/agents/fetcher.py lines 67-78): fetch arXiv (an
HTTP error here propagates), fetch Semantic Scholar (an HTTP error there
is caught and yields no items), merge keyed by paper_id with arXiv first,
persist the merged items, return them together with the updated table. -/
def fetcherRun (table : List PaperRow)
    (arxivResp : HttpResult (List ArxivEntry))
    (s2Resp : HttpResult (List S2Entry)) (now : Int) :
    Except Unit (List FetchItem × List PaperRow) := do
  let ids := existing_ids table
  let arxiv_items ← fetch_arxiv arxivResp ids.1
  let s2_items := fetch_semantic_scholar s2Resp ids.2
  let new_items := combineItems arxiv_items s2_items
  let table2 ← persistItems table new_items now
  Except.ok (new_items, table2)

/-- C2 counterexample: the arXiv catalog fails with a transient HTTP error
while Semantic Scholar is healthy and has a valid item; the run aborts
with the propagated error instead of continuing with the other catalog's
results. -/
theorem C2_cex :
    fetcherRun [] HttpResult.httpError
      (HttpResult.ok [{ title := "T", doi := some ("10.1234/abc"),
                        url := "u" }]) 0 = Except.error () := rfl

/-- C2 (amended): the failure handling is asymmetric.  A Semantic Scholar
HTTP failure is caught and logged and the run behaves exactly as if that
catalog had returned no data, continuing with the arXiv results alone; an
arXiv HTTP failure is not caught and aborts the whole run. -/
theorem C2_amended (table : List PaperRow) (now : Int) :
    (∀ aResp : HttpResult (List ArxivEntry),
      fetcherRun table aResp HttpResult.httpError now
        = fetcherRun table aResp (HttpResult.ok []) now) ∧
    (∀ s2Resp : HttpResult (List S2Entry),
      fetcherRun table HttpResult.httpError s2Resp now = Except.error ()) :=
  ⟨fun _ => rfl, fun _ => rfl⟩

/-- A concrete new item as built by the fetch stage. -/
def itemX : FetchItem :=
  { paper_id := "arxiv:2401.00001", title := "An item", doi := none,
    source := "arXiv", pdf_url := "p" }

/-- C6 counterexample: persisting an item whose id already exists in the
papers table aborts with the duplicate-key failure of the plain insert,
instead of ignoring the row as insert-or-ignore would. -/
theorem C6_cex :
    persistItems [newPaperRow itemX 0] [itemX] 1 = Except.error () := rfl

/-- C6 (amended): the fetch stage persists every new item with empty
summary and embedding "[]" using a PLAIN insert, not insert-or-ignore.
An item whose id is absent is appended and nothing is overwritten, but an
item whose id already exists raises a duplicate-key failure that aborts
(and rolls back) the persist transaction, rather than being silently
ignored. -/
theorem C6_amended (table : List PaperRow) (it : FetchItem) (now : Int) :
    (table.any (fun r => r.id == it.paper_id) = true →
      persistItems table [it] now = Except.error ()) ∧
    (table.any (fun r => r.id == it.paper_id) = false →
      persistItems table [it] now
        = Except.ok (table ++ [newPaperRow it now])) := by
  constructor <;> intro h <;> simp [persistItems, insertPaper, h]

/-- Witness for C6 (amended): the duplicate-key case at a concrete stored
row and the fresh-id case over the empty table. -/
theorem C6_amended_witness :
    persistItems [newPaperRow itemX 0] [itemX] 1 = Except.error () ∧
    persistItems [] [itemX] 1 = Except.ok [newPaperRow itemX 1] :=
  ⟨(C6_amended [newPaperRow itemX 0] itemX 1).1 (by decide),
   (C6_amended [] itemX 1).2 (by decide)⟩

/- ------------------------------------------------------------------ -/
/- All pipeline writes to the papers table, for the frame property C10 -/
/- ------------------------------------------------------------------ -/

/-- Every write the pipeline performs on the papers table: the fetch-stage
persist (fetcher.py lines 167-180), the summary overwrite
(summariser.py lines 212-215), the critique scores update (critic.py lines
91-102) and the embedding cache update (trend.py lines 50-54).  None of
the updates mentions the pdf_url column, and the schema has no source
column at all. -/
inductive PapersOp where
  | persistNew (items : List FetchItem) (now : Int)
  | setSummary (pid s : String)
  | setScores (pid nov meth rel crit : String)
  | setEmbedding (pid emb : String)

/-- Apply one write.  The updates are `UPDATE papers SET ... WHERE id =
pid`, mapped over the rows. -/
def applyPapersOp (table : List PaperRow) :
    PapersOp → Except Unit (List PaperRow)
  | PapersOp.persistNew items now => persistItems table items now
  | PapersOp.setSummary pid s =>
    Except.ok (table.map (fun r =>
      if r.id == pid then { r with summary := s } else r))
  | PapersOp.setScores pid nov meth rel crit =>
    Except.ok (table.map (fun r =>
      if r.id == pid then
        { r with score_novelty := some nov, score_method := some meth,
                 score_relevance := some rel, critique := some crit }
      else r))
  | PapersOp.setEmbedding pid emb =>
    Except.ok (table.map (fun r =>
      if r.id == pid then { r with embedding := some emb } else r))

/-- Apply a sequence of writes, aborting at the first failure. -/
def applyPapersOps (table : List PaperRow) :
    List PapersOp → Except Unit (List PaperRow)
  | [] => Except.ok table
  | op :: ops =>
    match applyPapersOp table op with
    | Except.error e => Except.error e
    | Except.ok t2 => applyPapersOps t2 ops

/-- A successful insert only appends rows with NULL pdf_url. -/
theorem insertPaper_pdf_none {table : List PaperRow} {it : FetchItem}
    {now : Int} {t2 : List PaperRow}
    (h0 : ∀ r ∈ table, r.pdf_url = none)
    (h : insertPaper table it now = Except.ok t2) :
    ∀ r ∈ t2, r.pdf_url = none := by
  unfold insertPaper at h
  split at h
  · simp at h
  · injection h with h
    subst h
    intro r hr
    rcases List.mem_append.mp hr with h1 | h2
    · exact h0 r h1
    · simp only [List.mem_singleton] at h2
      subst h2
      rfl

/-- The fetch-stage persist preserves all-NULL pdf_url. -/
theorem persistItems_pdf_none :
    ∀ (items : List FetchItem) (table t2 : List PaperRow) (now : Int),
      (∀ r ∈ table, r.pdf_url = none) →
      persistItems table items now = Except.ok t2 →
      ∀ r ∈ t2, r.pdf_url = none := by
  intro items
  induction items with
  | nil =>
    intro table t2 now h0 h
    injection h with h
    subst h
    exact h0
  | cons it rest ih =>
    intro table t2 now h0 h
    simp only [persistItems] at h
    rcases heq : insertPaper table it now with e | t1
    · rw [heq] at h; simp at h
    · rw [heq] at h
      exact ih t1 t2 now (insertPaper_pdf_none h0 heq) h

/-- Every single pipeline write preserves all-NULL pdf_url. -/
theorem applyPapersOp_pdf_none {table t2 : List PaperRow} {op : PapersOp}
    (h0 : ∀ r ∈ table, r.pdf_url = none)
    (h : applyPapersOp table op = Except.ok t2) :
    ∀ r ∈ t2, r.pdf_url = none := by
  cases op with
  | persistNew items now => exact persistItems_pdf_none items table t2 now h0 h
  | setSummary pid s =>
    injection h with h
    subst h
    intro r hr
    rcases List.mem_map.mp hr with ⟨r0, hr0, hmap⟩
    split at hmap <;> subst hmap <;> exact h0 r0 hr0
  | setScores pid nov meth rel crit =>
    injection h with h
    subst h
    intro r hr
    rcases List.mem_map.mp hr with ⟨r0, hr0, hmap⟩
    split at hmap <;> subst hmap <;> exact h0 r0 hr0
  | setEmbedding pid emb =>
    injection h with h
    subst h
    intro r hr
    rcases List.mem_map.mp hr with ⟨r0, hr0, hmap⟩
    split at hmap <;> subst hmap <;> exact h0 r0 hr0

/-- C10: the fetch-stage persist writes only id, title, empty summary and
embedding "[]" for each new item, and no pipeline write ever touches the
pdf_url column (the schema has no source column at all), so from a store
whose rows all have NULL pdf_url every reachable store keeps NULL pdf_url
on every record: stages reading items back from the store observe pdf_url
as absent. -/
theorem C10_pdf_url_never_written :
    ∀ (ops : List PapersOp) (table t2 : List PaperRow),
      (∀ r ∈ table, r.pdf_url = none) →
      applyPapersOps table ops = Except.ok t2 →
      ∀ r ∈ t2, r.pdf_url = none := by
  intro ops
  induction ops with
  | nil =>
    intro table t2 h0 h
    injection h with h
    subst h
    exact h0
  | cons op ops ih =>
    intro table t2 h0 h
    simp only [applyPapersOps] at h
    rcases heq : applyPapersOp table op with e | t1
    · rw [heq] at h; simp at h
    · rw [heq] at h
      exact ih t1 t2 (applyPapersOp_pdf_none h0 heq) h

/-- A concrete item persisted and then enriched by every later stage. -/
def itemY : FetchItem :=
  { paper_id := "10.5555/xyz", title := "Other", doi := some ("10.5555/xyz"),
    source := "Semantic Scholar", pdf_url := "q" }

/-- A concrete trace of pipeline writes for itemY. -/
def opsY : List PapersOp :=
  [PapersOp.persistNew [itemY] 0,
   PapersOp.setSummary ("10.5555/xyz") ("a summary"),
   PapersOp.setScores ("10.5555/xyz") ("7") ("6") ("8") ("fine"),
   PapersOp.setEmbedding ("10.5555/xyz") ("[0.1]")]

/-- The store state after the opsY trace. -/
def rowY : PaperRow :=
  { id := "10.5555/xyz", title := "Other", summary := "a summary",
    pdf_url := none, embedding := some ("[0.1]"),
    score_novelty := some ("7"), score_method := some ("6"),
    score_relevance := some ("8"), critique := some ("fine"),
    created_at := 0 }

/-- Witness for C10 on the concrete trace opsY from the empty store. -/
theorem C10_witness : rowY.pdf_url = none :=
  C10_pdf_url_never_written opsY [] [rowY] (by simp) (by rfl) rowY
    (List.mem_singleton.mpr rfl)

/- ------------------------------------------------------------------ -/
/- Trend stage: snapshot replacement (src/agents/trend.py lines       -/
/- 110-137, schema at src/services/storage.py lines 23-32)            -/
/- ------------------------------------------------------------------ -/

/-- A row of the trends table as inserted by the trend stage
(storage.py lines 23-32, values from trend.py lines 129-137). -/
structure TrendRow where
  trend_label : String
  paper_ids : List String
  count : Nat
  growth : ℚ
  computed_at : Int
deriving DecidableEq

/-- One SQL statement on the trends table. -/
inductive TrendOp where
  | deleteAll
  | insertRow (r : TrendRow)
deriving DecidableEq

/-- Effect of one statement on the table contents. -/
def applyTrendOp (t : List TrendRow) : TrendOp → List TrendRow
  | TrendOp.deleteAll => []
  | TrendOp.insertRow r => t ++ [r]

/-- Effect of a whole transaction.  A transaction is applied atomically:
under the single-writer assumption the table states observable by readers
are exactly those before and after a transaction, never between two of its
statements. -/
def applyTrendTxn (t : List TrendRow) (ops : List TrendOp) : List TrendRow :=
  ops.foldl applyTrendOp t

/-- Stable insertion of x into a descending-sorted list: x goes in front
of the first strictly smaller element, hence after every element equal to
it.  This is the permutation produced by Python stable sorting with
reverse=True. -/
def insertDescP {α : Type} (lt : α → α → Bool) (x : α) : List α → List α
  | [] => [x]
  | y :: ys => if lt y x then x :: y :: ys else y :: insertDescP lt x ys

/-- Stable descending sort, Python `list.sort(reverse=True)` and
`sorted(..., reverse=True)`. -/
def sortDescP {α : Type} (lt : α → α → Bool) (l : List α) : List α :=
  l.foldl (fun acc x => insertDescP lt x acc) []

/-- Python tuple `<` on the scored entries `(growth, lab, counts[lab],
label)` built at trend.py line 116: lexicographic. -/
def scoredLt (a b : ℚ × Nat × Nat × String) : Bool :=
  if a.1 < b.1 then true
  else if b.1 < a.1 then false
  else if a.2.1 < b.2.1 then true
  else if b.2.1 < a.2.1 then false
  else if a.2.2.1 < b.2.2.1 then true
  else if b.2.2.1 < a.2.2.1 then false
  else decide (a.2.2.2 < b.2.2.2)

/-- Integer rounding, ties to even (the rounding of Python round). -/
def roundHalfEven (q : ℚ) : ℤ :=
  let f := ⌊q⌋
  let frac := q - (f : ℚ)
  if frac < 1/2 then f
  else if 1/2 < frac then f + 1
  else if f % 2 = 0 then f else f + 1

/-- `round(g, 2)` of trend.py line 134, over the rationals. -/
def round2 (q : ℚ) : ℚ := (roundHalfEven (q * 100) : ℚ) / 100

/-- One clustered item as used in the snapshot write: id and creation
time (trend.py lines 119-128). -/
structure ClusteredItem where
  id : String
  created : Int
deriving DecidableEq

/-- `sorted(zip(rows, labels), key=lambda p: p[0]["created"],
reverse=True)` filtered to the given cluster label, keeping member ids
newest-first (trend.py lines 120-128). -/
def sortedIdsFor (rows : List ClusteredItem) (labels : List Nat)
    (lab : Nat) : List String :=
  (sortDescP (fun p q => decide (p.1.created < q.1.created))
      (rows.zip labels)).filterMap
    (fun p => if p.2 = lab then some p.1.id else none)

/-- Lines 112-117 of trend.py: the scored list over cluster labels
0..k-1, then `scored.sort(reverse=True)`. -/
def trendScoredSorted (k : Nat) (counts countsPrev : Nat → Nat)
    (labName : Nat → String) : List (ℚ × Nat × Nat × String) :=
  sortDescP scoredLt ((List.range k).map
    (fun lab => (growthCalc (counts lab) (countsPrev lab), lab,
                 counts lab, labName lab)))

/-- The snapshot rows inserted by trend.py lines 119-137: the top_k
entries of the sorted scored list, each with its label, newest-first
member ids, current count and rounded growth. -/
def trendNewRows (rows : List ClusteredItem) (labels : List Nat)
    (k top_k : Nat) (counts countsPrev : Nat → Nat)
    (labName : Nat → String) (now : Int) : List TrendRow :=
  ((trendScoredSorted k counts countsPrev labName).take top_k).map
    (fun s => { trend_label := s.2.2.2,
                paper_ids := sortedIdsFor rows labels s.2.1,
                count := s.2.2.1, growth := round2 s.1,
                computed_at := now })

/-- The single transaction issued by TrendAnalyzerAgent.run lines
110-137: `with engine.begin()` wraps one delete-all (line 111) followed
by the inserts of the new snapshot rows (lines 129-137). -/
def trendRunTxn (rows : List ClusteredItem) (labels : List Nat)
    (k top_k : Nat) (counts countsPrev : Nat → Nat)
    (labName : Nat → String) (now : Int) : List TrendOp :=
  TrendOp.deleteAll ::
    (trendNewRows rows labels k top_k counts countsPrev labName now).map
      TrendOp.insertRow

/-- Applying a pure sequence of inserts appends the rows. -/
theorem applyTrendTxn_inserts (rows : List TrendRow) :
    ∀ t : List TrendRow,
      applyTrendTxn t (rows.map TrendOp.insertRow) = t ++ rows := by
  induction rows with
  | nil => intro t; simp [applyTrendTxn]
  | cons r rs ih =>
    intro t
    simp only [applyTrendTxn, List.map_cons, List.foldl_cons] at *
    rw [ih (applyTrendOp t (TrendOp.insertRow r))]
    simp [applyTrendOp]

/-- C4: the trend stage replaces the persisted snapshot with delete-all
followed by the inserts of the new top-K rows inside a single
transaction, so from ANY previous table state the post-transaction table
is exactly the new rows of the latest run — no mix of two runs, and since
the delete and the inserts form one atomic transaction, no intermediate
(for instance empty) state is observable between them. -/
theorem C4_snapshot_replaced_atomically (old : List TrendRow)
    (rows : List ClusteredItem) (labels : List Nat) (k top_k : Nat)
    (counts countsPrev : Nat → Nat) (labName : Nat → String) (now : Int) :
    applyTrendTxn old
        (trendRunTxn rows labels k top_k counts countsPrev labName now)
      = trendNewRows rows labels k top_k counts countsPrev labName now := by
  unfold trendRunTxn applyTrendTxn
  rw [List.foldl_cons]
  have h := applyTrendTxn_inserts
    (trendNewRows rows labels k top_k counts countsPrev labName now)
    (applyTrendOp old TrendOp.deleteAll)
  unfold applyTrendTxn at h
  rw [h]
  simp [applyTrendOp]

/- ------------------------------------------------------------------ -/
/- Planning stage (src/agents/planner.py lines 40-76)                 -/
/- ------------------------------------------------------------------ -/

/-- Decimal digits to a natural number. -/
def digitsToNat (ds : List Char) : Nat :=
  ds.foldl (fun n c => 10 * n + (c.toNat - 48)) 0

/-- The plain decimal fragment of the Python float() string conversion:
optional integer digits, an optional point followed by fraction digits,
at least one digit overall; `none` models ValueError.  The stored score
fields only ever hold str() images of the critic JSON numbers, so the
exponent/inf/nan forms accepted by float() do not occur and are outside
the fragment embedded here. -/
def parseDecimal (s : List Char) : Option ℚ :=
  let intPart := s.takeWhile Char.isDigit
  let rest := s.dropWhile Char.isDigit
  match rest with
  | [] => if intPart.isEmpty then none else some ((digitsToNat intPart : ℚ))
  | '.' :: frac =>
    if frac.all Char.isDigit ∧ (intPart ≠ [] ∨ frac ≠ []) then
      some ((digitsToNat intPart : ℚ)
        + (digitsToNat frac : ℚ) / ((10 : ℚ) ^ frac.length))
    else none
  | _ => none

/-- Python `float(text)` on the decimal fragment, with optional sign. -/
def pyFloat (s : String) : Option ℚ :=
  match s.data with
  | '+' :: rest => parseDecimal rest
  | '-' :: rest => (parseDecimal rest).map (fun q => -q)
  | l => parseDecimal l

/-- `float(field or 0)` at planner.py lines 68-69: a NULL or empty stored
field is replaced by the integer 0 before conversion, so it converts to
0.0 instead of raising ValueError. -/
def pyFloatOrZero (t : Option String) : Option ℚ :=
  match t with
  | none => some 0
  | some s => if s = "" then some 0 else pyFloat s

/-- One candidate row of the select at planner.py lines 46-58, fields in
the column order of that select. -/
structure PlanCand where
  id : String
  title : String
  pdf_url : Option String
  summary : String
  score_novelty : Option String
  score_relevance : Option String
  created_at : Int
deriving DecidableEq

/-- Python comparison of two same-position row elements of optional type:
None equals None, two strings compare lexicographically, and None against
a string raises TypeError (the error case). -/
def pyOptCmp : Option String → Option String → Except Unit Ordering
  | none, none => Except.ok Ordering.eq
  | some a, some b => Except.ok (compare a b)
  | _, _ => Except.error ()

/-- Python tuple comparison of two result rows, element by element in the
column order of the select at planner.py lines 46-58.  Rows of one result
set have distinct primary-key ids, so the comparison is in practice
decided at the id column; the remaining columns are embedded anyway. -/
def rowCmp (a b : PlanCand) : Except Unit Ordering :=
  if compare a.id b.id ≠ Ordering.eq then Except.ok (compare a.id b.id)
  else if compare a.title b.title ≠ Ordering.eq then
    Except.ok (compare a.title b.title)
  else
    match pyOptCmp a.pdf_url b.pdf_url with
    | Except.error e => Except.error e
    | Except.ok c3 =>
      if c3 ≠ Ordering.eq then Except.ok c3
      else if compare a.summary b.summary ≠ Ordering.eq then
        Except.ok (compare a.summary b.summary)
      else
        match pyOptCmp a.score_novelty b.score_novelty with
        | Except.error e => Except.error e
        | Except.ok c5 =>
          if c5 ≠ Ordering.eq then Except.ok c5
          else
            match pyOptCmp a.score_relevance b.score_relevance with
            | Except.error e => Except.error e
            | Except.ok c6 =>
              if c6 ≠ Ordering.eq then Except.ok c6
              else Except.ok (compare a.created_at b.created_at)

/-- Python `<` on the (score, row) pairs sorted at planner.py line 75:
first the float scores, then (on equal scores) tuple comparison of the
rows. -/
def pairLt (x y : ℚ × PlanCand) : Except Unit Bool :=
  if x.1 < y.1 then Except.ok true
  else if y.1 < x.1 then Except.ok false
  else
    match rowCmp x.2 y.2 with
    | Except.error e => Except.error e
    | Except.ok c => Except.ok (c == Ordering.lt)

/-- Stable descending insertion with the fallible Python comparison: the
new element goes in front of the first element strictly below it, hence
after every element comparing equal — the placement Python stable
`sort(reverse=True)` gives it.  A TypeError in a comparison aborts. -/
def insertDescM (x : ℚ × PlanCand) :
    List (ℚ × PlanCand) → Except Unit (List (ℚ × PlanCand))
  | [] => Except.ok [x]
  | y :: ys =>
    match pairLt y x with
    | Except.error e => Except.error e
    | Except.ok true => Except.ok (x :: y :: ys)
    | Except.ok false =>
      match insertDescM x ys with
      | Except.error e => Except.error e
      | Except.ok t => Except.ok (y :: t)

/-- Fold the scored pairs in their query order into a descending-sorted
list (the effect of `scored.sort(reverse=True)` at planner.py line 75). -/
def sortPairsDesc (acc : List (ℚ × PlanCand)) :
    List (ℚ × PlanCand) → Except Unit (List (ℚ × PlanCand))
  | [] => Except.ok acc
  | x :: xs =>
    match insertDescM x acc with
    | Except.error e => Except.error e
    | Except.ok acc2 => sortPairsDesc acc2 xs

/-- Lines 66-73 of planner.py for one candidate row: convert
`float(score_novelty or 0)` and `float(score_relevance or 0)`; a
ValueError skips the row (`continue`); otherwise the row is paired with
the score `0.4 * novelty + 0.6 * relevance`.  Embedded over the
rationals; at the integer scores the critic stores, the double
computation is exact. -/
def parseCand (r : PlanCand) : Option (ℚ × PlanCand) :=
  match pyFloatOrZero r.score_novelty with
  | none => none
  | some novelty =>
    match pyFloatOrZero r.score_relevance with
    | none => none
    | some relevance =>
      some ((0.4 : ℚ) * novelty + (0.6 : ℚ) * relevance, r)

/-- Lines 64-76 of planner.py: score the candidate rows (dropping rows
whose stored scores raise ValueError), stable-sort the (score, row) pairs
descending, and keep the first top_n. -/
def plannerRank (rows : List PlanCand) (top_n : Nat) :
    Except Unit (List (ℚ × PlanCand)) :=
  match sortPairsDesc [] (rows.filterMap parseCand) with
  | Except.error e => Except.error e
  | Except.ok sorted => Except.ok (sorted.take top_n)

/-- Two candidate rows with identical scores (novelty "5", relevance "8"),
queried in the order candA then candB. -/
def candA : PlanCand :=
  { id := "a", title := "first", pdf_url := none, summary := "sa",
    score_novelty := some ("5"), score_relevance := some ("8"),
    created_at := 0 }

def candB : PlanCand :=
  { id := "b", title := "second", pdf_url := none, summary := "sb",
    score_novelty := some ("5"), score_relevance := some ("8"),
    created_at := 1 }

/-- The score of candA evaluates to exactly 6.8. -/
theorem parseCand_candA : parseCand candA = some ((6.8 : ℚ), candA) := by
  have e1 : pyFloatOrZero (some ("5")) = some ((5 : ℚ)) := by decide
  have e2 : pyFloatOrZero (some ("8")) = some ((8 : ℚ)) := by decide
  simp only [parseCand, show candA.score_novelty = some ("5") from rfl,
    show candA.score_relevance = some ("8") from rfl, e1, e2,
    Option.some.injEq, Prod.mk.injEq]
  norm_num

/-- The score of candB evaluates to exactly 6.8. -/
theorem parseCand_candB : parseCand candB = some ((6.8 : ℚ), candB) := by
  have e1 : pyFloatOrZero (some ("5")) = some ((5 : ℚ)) := by decide
  have e2 : pyFloatOrZero (some ("8")) = some ((8 : ℚ)) := by decide
  simp only [parseCand, show candB.score_novelty = some ("5") from rfl,
    show candB.score_relevance = some ("8") from rfl, e1, e2,
    Option.some.injEq, Prod.mk.injEq]
  norm_num

/-- On equal scores the pair comparison falls through to the Python row
comparison, decided at the id column: candA sorts below candB. -/
theorem rowCmp_candA_candB : rowCmp candA candB = Except.ok Ordering.lt := by
  rfl

theorem pairLt_candAB :
    pairLt ((6.8 : ℚ), candA) ((6.8 : ℚ), candB) = Except.ok true := by
  unfold pairLt
  rw [if_neg (lt_irrefl _), if_neg (lt_irrefl _), rowCmp_candA_candB]
  rfl

/-- The concrete ranking of candA, candB: equal scores, output reversed
relative to the query order. -/
theorem plannerRank_candAB :
    plannerRank [candA, candB] 5
      = Except.ok [((6.8 : ℚ), candB), ((6.8 : ℚ), candA)] := by
  have h1 : [candA, candB].filterMap parseCand
      = [((6.8 : ℚ), candA), ((6.8 : ℚ), candB)] := by
    simp [List.filterMap_cons, parseCand_candA, parseCand_candB]
  have h5 : sortPairsDesc [] [((6.8 : ℚ), candA), ((6.8 : ℚ), candB)]
      = Except.ok [((6.8 : ℚ), candB), ((6.8 : ℚ), candA)] := by
    simp only [sortPairsDesc, insertDescM, pairLt_candAB]
  unfold plannerRank
  rw [h1, h5]
  rfl

/-- C5 counterexample: two distinct candidates with equal scores 6.8 are
returned in the order candB, candA although their insertion/query order
was candA, candB: the sort key is the whole (score, row) pair, so ties
are broken by descending row comparison, not by the stable insertion
order. -/
theorem C5_cex :
    plannerRank [candA, candB] 5
      = Except.ok [((6.8 : ℚ), candB), ((6.8 : ℚ), candA)] ∧
    candA ≠ candB := by
  exact ⟨plannerRank_candAB, by decide⟩

/-- pairLt returning true means the scores are ordered accordingly. -/
theorem pairLt_ok_true {x y : ℚ × PlanCand}
    (h : pairLt x y = Except.ok true) : x.1 ≤ y.1 := by
  by_contra hgt
  push_neg at hgt
  unfold pairLt at h
  rw [if_neg (lt_asymm hgt), if_pos hgt] at h
  simp at h

/-- pairLt returning false means the scores are ordered the other way. -/
theorem pairLt_ok_false {x y : ℚ × PlanCand}
    (h : pairLt x y = Except.ok false) : y.1 ≤ x.1 := by
  by_contra hgt
  push_neg at hgt
  unfold pairLt at h
  rw [if_pos hgt] at h
  simp at h

/-- Shape of a successful insertion: either in front, or the head is kept
and the insertion went into the tail. -/
theorem insertDescM_ok_shape {x : ℚ × PlanCand} :
    ∀ {l t : List (ℚ × PlanCand)}, insertDescM x l = Except.ok t →
      t = x :: l ∨ ∃ y ys t2, l = y :: ys ∧ t = y :: t2 ∧
        insertDescM x ys = Except.ok t2 := by
  intro l t h
  cases l with
  | nil =>
    left
    simp only [insertDescM] at h
    injection h with h
    subst h
    rfl
  | cons y ys =>
    simp only [insertDescM] at h
    cases hc : pairLt y x with
    | error e => rw [hc] at h; simp at h
    | ok b =>
      rw [hc] at h
      cases b with
      | true =>
        injection h with h
        subst h
        left
        rfl
      | false =>
        cases hr : insertDescM x ys with
        | error e => rw [hr] at h; simp at h
        | ok t2 =>
          rw [hr] at h
          injection h with h
          subst h
          right
          exact ⟨y, ys, t2, rfl, rfl, hr⟩

/-- Inserting into a score-descending list keeps it score-descending. -/
theorem insertDescM_chain {x : ℚ × PlanCand} :
    ∀ {l t : List (ℚ × PlanCand)},
      List.Chain' (fun a b => b.1 ≤ a.1) l →
      insertDescM x l = Except.ok t →
      List.Chain' (fun a b => b.1 ≤ a.1) t := by
  intro l
  induction l with
  | nil =>
    intro t _ h
    simp only [insertDescM] at h
    injection h with h
    subst h
    exact List.chain'_singleton x
  | cons y ys ih =>
    intro t hc h
    simp only [insertDescM] at h
    cases hcmp : pairLt y x with
    | error e => rw [hcmp] at h; simp at h
    | ok b =>
      rw [hcmp] at h
      cases b with
      | true =>
        injection h with h
        subst h
        exact List.Chain'.cons (pairLt_ok_true hcmp) hc
      | false =>
        cases hr : insertDescM x ys with
        | error e => rw [hr] at h; simp at h
        | ok t2 =>
          rw [hr] at h
          injection h with h
          subst h
          have hc2 := ih hc.tail hr
          rcases insertDescM_ok_shape hr with h1 | ⟨z, zs, t3, hys, ht2, _⟩
          · subst h1
            exact List.Chain'.cons (pairLt_ok_false hcmp) hc2
          · subst hys
            subst ht2
            exact List.Chain'.cons (List.chain'_cons.mp hc).1 hc2

/-- The sorting fold preserves score-descending order. -/
theorem sortPairsDesc_chain :
    ∀ (xs acc out : List (ℚ × PlanCand)),
      List.Chain' (fun a b => b.1 ≤ a.1) acc →
      sortPairsDesc acc xs = Except.ok out →
      List.Chain' (fun a b => b.1 ≤ a.1) out := by
  intro xs
  induction xs with
  | nil =>
    intro acc out hc h
    simp only [sortPairsDesc] at h
    injection h with h
    subst h
    exact hc
  | cons x xs ih =>
    intro acc out hc h
    simp only [sortPairsDesc] at h
    cases hi : insertDescM x acc with
    | error e => rw [hi] at h; simp at h
    | ok acc2 =>
      rw [hi] at h
      exact ih acc2 out (insertDescM_chain hc hi) h

/-- C5 (amended): a candidate with stored relevance "8" and novelty "5"
is scored exactly 0.4·5 + 0.6·8 = 6.8, and the ranking output is sorted
by descending score; but items with equal scores do NOT keep their
insertion/query order: the sort compares whole (score, row) pairs, so
ties fall back to descending Python row comparison (decided at the id
column), as the concrete pair candA, candB shows. -/
theorem C5_amended :
    (∀ r : PlanCand, r.score_novelty = some ("5") →
      r.score_relevance = some ("8") →
      parseCand r = some ((6.8 : ℚ), r)) ∧
    (∀ (rows : List PlanCand) (n : Nat) (out : List (ℚ × PlanCand)),
      plannerRank rows n = Except.ok out →
      List.Chain' (fun a b => b.1 ≤ a.1) out) ∧
    plannerRank [candA, candB] 5
      = Except.ok [((6.8 : ℚ), candB), ((6.8 : ℚ), candA)] := by
  refine ⟨?_, ?_, plannerRank_candAB⟩
  · intro r h1 h2
    have e1 : pyFloatOrZero (some ("5")) = some (5 : ℚ) := by decide
    have e2 : pyFloatOrZero (some ("8")) = some (8 : ℚ) := by decide
    simp only [parseCand, h1, h2, e1, e2, Option.some.injEq, Prod.mk.injEq]
    norm_num
  · intro rows n out h
    unfold plannerRank at h
    cases hs : sortPairsDesc [] (rows.filterMap parseCand) with
    | error e => rw [hs] at h; simp at h
    | ok sorted =>
      rw [hs] at h
      injection h with h
      subst h
      exact (sortPairsDesc_chain _ [] sorted List.chain'_nil hs).take n

/-- Witness for C5 (amended) at the concrete candidates. -/
theorem C5_amended_witness :
    parseCand candA = some ((6.8 : ℚ), candA) ∧
    List.Chain' (fun (a b : ℚ × PlanCand) => b.1 ≤ a.1)
      [((6.8 : ℚ), candB), ((6.8 : ℚ), candA)] ∧
    plannerRank [candA, candB] 5
      = Except.ok [((6.8 : ℚ), candB), ((6.8 : ℚ), candA)] :=
  ⟨C5_amended.1 candA rfl rfl,
   C5_amended.2.1 [candA, candB] 5 [((6.8 : ℚ), candB), ((6.8 : ℚ), candA)]
     C5_amended.2.2,
   C5_amended.2.2⟩

/-- A candidate row whose stored score fields are NULL (never critiqued). -/
def candNull : PlanCand :=
  { id := "c", title := "null scores", pdf_url := none, summary := "sc",
    score_novelty := none, score_relevance := none, created_at := 2 }

/-- A candidate row with an unparsable non-empty score text. -/
def candNA : PlanCand :=
  { id := "d", title := "bad score", pdf_url := none, summary := "sd",
    score_novelty := some ("n/a"), score_relevance := some ("8"),
    created_at := 3 }

/-- A candidate with NULL score fields is scored 0, not excluded. -/
theorem parseCand_candNull :
    parseCand candNull = some ((0 : ℚ), candNull) := by
  simp only [parseCand, show candNull.score_novelty = none from rfl,
    show candNull.score_relevance = none from rfl, pyFloatOrZero,
    Option.some.injEq, Prod.mk.injEq]
  norm_num

theorem plannerRank_candNull :
    plannerRank [candNull] 5 = Except.ok [((0 : ℚ), candNull)] := by
  have h1 : [candNull].filterMap parseCand = [((0 : ℚ), candNull)] := by
    simp [List.filterMap_cons, parseCand_candNull]
  unfold plannerRank
  rw [h1]
  rfl

/-- C8 counterexample: a candidate whose score fields are absent (NULL) is
not excluded from the ranking: `float(None or 0)` converts the default 0,
and the item enters the ranking with score 0. -/
theorem C8_cex :
    parseCand candNull = some ((0 : ℚ), candNull) ∧
    plannerRank [candNull] 5 = Except.ok [((0 : ℚ), candNull)] :=
  ⟨parseCand_candNull, plannerRank_candNull⟩

/-- C8 (amended): only a candidate whose stored score text is non-empty
and unparsable raises ValueError and is excluded from the ranking; a NULL
(absent) score field is defaulted to 0 by `field or 0` and the candidate
stays in the ranking with the defaulted score. -/
theorem C8_amended (r : PlanCand) :
    (r.score_novelty = some ("n/a") → parseCand r = none) ∧
    (r.score_novelty = none → r.score_relevance = none →
      parseCand r = some ((0 : ℚ), r)) := by
  constructor
  · intro h1
    have e : pyFloatOrZero (some ("n/a")) = none := by decide
    simp only [parseCand, h1, e]
  · intro h1 h2
    simp only [parseCand, h1, h2, pyFloatOrZero, Option.some.injEq,
      Prod.mk.injEq]
    norm_num

/-- Witness for C8 (amended) at the concrete candidates. -/
theorem C8_amended_witness :
    parseCand candNA = none ∧
    parseCand candNull = some ((0 : ℚ), candNull) :=
  ⟨(C8_amended candNA).1 rfl, (C8_amended candNull).2 rfl rfl⟩

/- ------------------------------------------------------------------ -/
/- Critique stage (src/agents/critic.py lines 41-87)                  -/
/- ------------------------------------------------------------------ -/

/-- The JSON object parsed from the oracle response, seen through the four
expected keys (present or absent, values as their str images) plus a flag
for the presence of any other keys. -/
structure ReviewDict where
  novelty : Option String
  methodology : Option String
  relevance : Option String
  critique : Option String
  otherKeys : Bool
deriving DecidableEq

/-- The oracle response as _review sees it (critic.py lines 41-57): the
transport may raise, json.loads may raise on the content, or a JSON
object is obtained. -/
inductive OracleResp where
  | transportError
  | invalidJson
  | object (d : ReviewDict)
deriving DecidableEq

/-- _review (critic.py lines 41-57): any exception from the transport or
from json.loads is caught, logged as a warning, and turned into None. -/
def review_of (resp : OracleResp) : Option ReviewDict :=
  match resp with
  | OracleResp.transportError => none
  | OracleResp.invalidJson => none
  | OracleResp.object d => some d

/-- Python truthiness of the parsed dict at `if not review` (critic.py
line 75): None and the empty dict are falsy, any non-empty dict is
truthy. -/
def reviewTruthy (d : ReviewDict) : Bool :=
  d.novelty.isSome || d.methodology.isSome || d.relevance.isSome ||
    d.critique.isSome || d.otherKeys

/-- `review[key]` at critic.py lines 80-83: a missing key raises
KeyError, which nothing in CriticAgent.run catches. -/
def keyLookup (v : Option String) : Except Unit String :=
  match v with
  | none => Except.error ()
  | some s => Except.ok s

/-- An input item to the critique stage (paper_id and summary). -/
structure CriticItem where
  paper_id : String
  summary : String
deriving DecidableEq

/-- One scored output item (the dict after p.update, critic.py lines
79-84). -/
structure ScoredItem where
  paper_id : String
  summary : String
  score_novelty : String
  score_method : String
  score_relevance : String
  critique : String
deriving DecidableEq

/-- CriticAgent.run (critic.py lines 66-87): an item with a summary
shorter than min_summary_len (default 50) is skipped; a falsy review
(transport failure, unparsable JSON, or empty object) drops the item and
the loop continues; otherwise the four keys are read in the order
novelty, methodology, relevance, critique — an absent key raises
KeyError, which propagates out of the whole stage — and the scored item
is emitted.  The oracle maps the summary text to a response. -/
def criticRun (minLen : Nat) (oracle : String → OracleResp) :
    List CriticItem → Except Unit (List ScoredItem)
  | [] => Except.ok []
  | p :: rest =>
    if p.summary.length < minLen then criticRun minLen oracle rest
    else
      match review_of (oracle p.summary) with
      | none => criticRun minLen oracle rest
      | some d =>
        if reviewTruthy d = false then criticRun minLen oracle rest
        else
          match keyLookup d.novelty with
          | Except.error e => Except.error e
          | Except.ok nov =>
            match keyLookup d.methodology with
            | Except.error e => Except.error e
            | Except.ok meth =>
              match keyLookup d.relevance with
              | Except.error e => Except.error e
              | Except.ok rel =>
                match keyLookup d.critique with
                | Except.error e => Except.error e
                | Except.ok crit =>
                  match criticRun minLen oracle rest with
                  | Except.error e => Except.error e
                  | Except.ok outs =>
                    Except.ok ({ paper_id := p.paper_id,
                                 summary := p.summary,
                                 score_novelty := nov,
                                 score_method := meth,
                                 score_relevance := rel,
                                 critique := crit } :: outs)

/-- A summary text of 61 characters, above the default threshold 50. -/
def longSummary : String :=
  "0123456789012345678901234567890123456789012345678901234567890"

/-- A valid, non-empty JSON object that lacks the critique key. -/
def partialReview : ReviewDict :=
  { novelty := some ("7"), methodology := some ("5"),
    relevance := some ("8"), critique := none, otherKeys := false }

/-- C7 counterexample: a response that is valid JSON but lacks one of the
expected fields (critique) makes CriticAgent.run raise an uncaught
KeyError: the stage aborts with a fatal error instead of dropping the
item. -/
theorem C7_cex :
    criticRun 50 (fun _ => OracleResp.object partialReview)
      [{ paper_id := "p1", summary := longSummary }] = Except.error () := rfl

/-- C7 (amended): a transport failure or a response that is not parseable
JSON is caught inside _review and only drops the item, never aborting the
stage; but a response that parses to a non-empty JSON object missing one
of the expected fields novelty/methodology/relevance/critique raises an
uncaught KeyError that propagates out of the stage as a fatal error. -/
theorem C7_amended (minLen : Nat) (oracle : String → OracleResp)
    (p : CriticItem) (rest : List CriticItem) :
    ((oracle p.summary = OracleResp.transportError ∨
      oracle p.summary = OracleResp.invalidJson) →
      criticRun minLen oracle (p :: rest) = criticRun minLen oracle rest) ∧
    (∀ d : ReviewDict, oracle p.summary = OracleResp.object d →
      reviewTruthy d = true →
      (d.novelty = none ∨ d.methodology = none ∨ d.relevance = none ∨
        d.critique = none) →
      minLen ≤ p.summary.length →
      criticRun minLen oracle (p :: rest) = Except.error ()) := by
  constructor
  · intro hor
    by_cases hl : p.summary.length < minLen
    · simp only [criticRun, if_pos hl]
    · rcases hor with h | h <;>
        simp only [criticRun, if_neg hl, h, review_of]
  · intro d hor htr hmiss hlen
    have hnl : ¬ (p.summary.length < minLen) := not_lt.mpr hlen
    simp only [criticRun, if_neg hnl, hor, review_of, htr]
    rcases hmiss with h | h | h | h
    · rw [h]
      rfl
    · cases hn : d.novelty with
      | none => rfl
      | some nov => rw [h]; rfl
    · cases hn : d.novelty with
      | none => rfl
      | some nov =>
        cases hm : d.methodology with
        | none => rfl
        | some meth => rw [h]; rfl
    · cases hn : d.novelty with
      | none => rfl
      | some nov =>
        cases hm : d.methodology with
        | none => rfl
        | some meth =>
          cases hr : d.relevance with
          | none => rfl
          | some rel => rw [h]; rfl

/-- Witness for C7 (amended) at a concrete item and the two concrete
oracle behaviours. -/
theorem C7_amended_witness :
    criticRun 50 (fun _ => OracleResp.transportError)
        [{ paper_id := "p1", summary := longSummary }]
      = criticRun 50 (fun _ => OracleResp.transportError) [] ∧
    criticRun 50 (fun _ => OracleResp.object partialReview)
        [{ paper_id := "p1", summary := longSummary }] = Except.error () :=
  ⟨(C7_amended 50 (fun _ => OracleResp.transportError)
      { paper_id := "p1", summary := longSummary } []).1 (Or.inl rfl),
   (C7_amended 50 (fun _ => OracleResp.object partialReview)
      { paper_id := "p1", summary := longSummary } []).2 partialReview rfl
     (by decide) (Or.inr (Or.inr (Or.inr rfl))) (by decide)⟩
